import Mathlib

/-!
Shallow embedding of the multispinner Go library (package multispinner).

Conventions of the embedding:

* Go slices become Lean lists; a Go int parameter that a caller may pass as a
  negative number becomes Int, while fields that only ever hold counts become
  Nat.
* A send on updateChan becomes a returned event: each API call returns the
  updated state together with the updateMsg it would send (if any).  The
  render goroutine is modelled by Spinner.handleMsg (the switch on one channel
  message inside run) and Spinner.runStep (one iteration of the select loop).
* Terminal writes become an explicit output list (Out.write); the call
  os.Stdout.Sync becomes Out.sync.
* A Go runtime panic (slice index out of range) becomes Except.error.
-/

namespace Multispinner

/-- One terminal output action: a write of a string, or a flush of stdout. -/
inductive Out where
  | write : String → Out
  | sync : Out
  deriving Repr, DecidableEq

/-- Escape sequence that shows the cursor. -/
def showCursor : String := "\x1b[?25h"

/-- Escape sequence that hides the cursor. -/
def hideCursor : String := "\x1b[?25l"

/-- Escape sequence that resets all terminal attributes. -/
def resetAttrs : String := "\x1b[0m"

/-- Escape sequence that saves the cursor position. -/
def saveCursorPos : String := "\x1b[s"

/-- Escape sequence that restores the saved cursor position. -/
def restoreCursorPos : String := "\x1b[u"

/-- Escape sequence that clears from the cursor to the end of the line. -/
def clearLine : String := "\x1b[K"

/-- Escape sequence that moves the cursor down n rows. -/
def moveDown (n : Nat) : String := "\x1b[" ++ toString n ++ "B"

/-- Go struct spinnerInfo: one registered spinner record. -/
structure spinnerInfo where
  message : String
  index : Nat
  active : Bool
  lineNum : Nat
  deriving Repr, DecidableEq

/-- Go struct updateMsg: one message on updateChan. -/
structure updateMsg where
  index : Int
  message : String
  action : String
  deriving Repr, DecidableEq

/-- Go struct Config: configuration for Create.  Frequency is a Go
time.Duration, i.e. a number of nanoseconds. -/
structure Config where
  SuccessColor : String
  FailureColor : String
  Frequency : Nat
  deriving Repr, DecidableEq

/-- Go func DefaultConfig: green success color, red failure color, 100ms. -/
def DefaultConfig : Config :=
  { SuccessColor := "\x1b[32m"
    FailureColor := "\x1b[31m"
    Frequency := 100000000 }

/-- Go struct Spinner: the multi-spinner instance.  The mutex and the two
channels are not data; stopChan and updateChan are modelled by the event
conventions above. -/
structure Spinner where
  spinners : List spinnerInfo
  successColor : String
  failureColor : String
  frequency : Nat
  currentLine : Nat
  activeCount : Int
  startLine : Nat
  deriving Repr, DecidableEq

/-- Go func Create: applies defaults for zero-valued config fields, resets the
terminal (show cursor, reset attributes), saves the cursor position, and
returns the fresh Spinner value.  Starting the run goroutine is modelled by
using Spinner.runStep and Spinner.handleMsg on the returned state. -/
def Create (config : Config) : Spinner × List Out :=
  let config := if config.Frequency = 0 then { config with Frequency := DefaultConfig.Frequency } else config
  let config := if config.SuccessColor = "" then { config with SuccessColor := DefaultConfig.SuccessColor } else config
  let config := if config.FailureColor = "" then { config with FailureColor := DefaultConfig.FailureColor } else config
  ({ spinners := []
     successColor := config.SuccessColor
     failureColor := config.FailureColor
     frequency := config.Frequency
     currentLine := 0
     activeCount := 0
     startLine := 0 },
   [Out.write showCursor, Out.write resetAttrs, Out.write saveCursorPos])

/-- Go method Register: appends a new record (zero-valued message and active
flag, index = current length, lineNum = currentLine), increments currentLine,
and returns the index. -/
def Spinner.Register (s : Spinner) : Spinner × Nat :=
  let index := s.spinners.length
  ({ s with
      spinners := s.spinners ++ [{ message := "", index := index, active := false, lineNum := s.currentLine }]
      currentLine := s.currentLine + 1 },
   index)

/-- Go method Message: sends an update event on updateChan and mutates
nothing itself. -/
def Spinner.Message (s : Spinner) (index : Int) (message : String) :
    Spinner × Option updateMsg :=
  (s, some { index := index, message := message, action := "update" })

/-- Go method Start: no-op when index is at least the number of registered
spinners; otherwise the slice access panics on a negative index, and on an
in-range index it sets the message, sets active, and sends a start event. -/
def Spinner.Start (s : Spinner) (index : Int) (message : String) :
    Except String (Spinner × Option updateMsg) :=
  if (s.spinners.length : Int) ≤ index then
    .ok (s, none)
  else if index < 0 then
    .error "runtime error: index out of range"
  else
    match s.spinners[index.toNat]? with
    | none => .error "runtime error: index out of range"
    | some sp =>
        .ok ({ s with spinners := s.spinners.set index.toNat { sp with message := message, active := true } },
             some { index := index, message := message, action := "start" })

/-- Go method Stop: no-op when index is at least the number of registered
spinners (slice access panics on a negative index) or when the record is
inactive; otherwise clears the active flag, sends a stop event, and prints the
final success line (restore cursor position, move down lineNum rows when
positive, clear the line, success marker and message, reset, newline) followed
by a flush of stdout. -/
def Spinner.Stop (s : Spinner) (index : Int) (message : String) :
    Except String (Spinner × Option updateMsg × List Out) :=
  if (s.spinners.length : Int) ≤ index then
    .ok (s, none, [])
  else if index < 0 then
    .error "runtime error: index out of range"
  else
    match s.spinners[index.toNat]? with
    | none => .error "runtime error: index out of range"
    | some spinner =>
        if spinner.active = false then
          .ok (s, none, [])
        else
          .ok ({ s with spinners := s.spinners.set index.toNat { spinner with active := false } },
               some { index := index, message := message, action := "stop" },
               [Out.write restoreCursorPos] ++
                 (if spinner.lineNum > 0 then [Out.write (moveDown spinner.lineNum)] else []) ++
                 [Out.write (clearLine ++ (s.successColor ++ "✓" ++ s.successColor) ++ " " ++ message ++ resetAttrs ++ "\n"),
                  Out.sync])

/-- Go method StopWithError: identical to Stop except that the event action is
error and the final line uses the failure color and the failure marker. -/
def Spinner.StopWithError (s : Spinner) (index : Int) (error : String) :
    Except String (Spinner × Option updateMsg × List Out) :=
  if (s.spinners.length : Int) ≤ index then
    .ok (s, none, [])
  else if index < 0 then
    .error "runtime error: index out of range"
  else
    match s.spinners[index.toNat]? with
    | none => .error "runtime error: index out of range"
    | some spinner =>
        if spinner.active = false then
          .ok (s, none, [])
        else
          .ok ({ s with spinners := s.spinners.set index.toNat { spinner with active := false } },
               some { index := index, message := error, action := "error" },
               [Out.write restoreCursorPos] ++
                 (if spinner.lineNum > 0 then [Out.write (moveDown spinner.lineNum)] else []) ++
                 [Out.write (clearLine ++ (s.failureColor ++ "✗" ++ s.failureColor) ++ " " ++ error ++ resetAttrs ++ "\n"),
                  Out.sync])

/-- Go func run, the case reading one msg from updateChan: on a start action,
hide the cursor when activeCount was 0 and increment activeCount; on a stop or
error action, decrement activeCount and, when it reaches 0, show the cursor
and reset attributes; any other action (in particular update) does nothing. -/
def Spinner.handleMsg (s : Spinner) (msg : updateMsg) : Spinner × List Out :=
  if msg.action = "start" then
    ({ s with activeCount := s.activeCount + 1 },
     if s.activeCount = 0 then [Out.write hideCursor] else [])
  else if msg.action = "stop" ∨ msg.action = "error" then
    ({ s with activeCount := s.activeCount - 1 },
     if s.activeCount - 1 = 0 then [Out.write showCursor, Out.write resetAttrs] else [])
  else
    (s, [])

/-- Go func run: the animation glyphs. -/
def chars : List String := ["⠋", "⠙", "⠹", "⠸", "⠼", "⠴", "⠦", "⠧", "⠇", "⠏"]

/-- Go func run, the body of the repaint loop for one record: an active record
is repainted by restoring the cursor position, moving down lineNum rows when
positive, clearing the line and writing the glyph and the current message; an
inactive record produces nothing. -/
def renderLine (glyph : String) (spinner : spinnerInfo) : List Out :=
  if spinner.active then
    [Out.write restoreCursorPos] ++
      (if spinner.lineNum > 0 then [Out.write (moveDown spinner.lineNum)] else []) ++
      [Out.write (clearLine ++ resetAttrs ++ glyph ++ " " ++ spinner.message)]
  else
    []

/-- Go func run: one full repaint pass over all records, in registration
order. -/
def Spinner.renderFrame (s : Spinner) (glyph : String) : List Out :=
  (s.spinners.map (renderLine glyph)).flatten

/-- The three inputs one iteration of the select loop in run can consume: the
termination signal on stopChan, one message from updateChan, or the default
branch (a repaint tick). -/
inductive RunInput where
  | stopSignal
  | update (msg : updateMsg)
  | tick
  deriving Repr, DecidableEq

/-- Go func run, one iteration of the select loop.  The loop state besides the
Spinner is the glyph position i and the firstRun flag; the result is none when
the goroutine returns.  On the stop signal the cursor is shown and attributes
are reset before exiting.  On the tick, nothing is painted unless activeCount
is positive; sleeping is not modelled (firstRun only controls sleeping). -/
def Spinner.runStep (s : Spinner) (i : Nat) (firstRun : Bool) (inp : RunInput) :
    Option (Spinner × Nat × Bool) × List Out :=
  match inp with
  | RunInput.stopSignal => (none, [Out.write showCursor, Out.write resetAttrs])
  | RunInput.update msg =>
      let p := s.handleMsg msg
      (some (p.1, i, firstRun), p.2)
  | RunInput.tick =>
      if s.activeCount > 0 then
        (some (s, (i + 1) % chars.length, false), s.renderFrame ((chars[i]?).getD ""))
      else
        (some (s, i, firstRun), [])

/-- One call of the public API, for describing call sequences. -/
inductive Call where
  | register
  | start (index : Int) (message : String)
  | message (index : Int) (message : String)
  | stop (index : Int) (message : String)
  | stopWithError (index : Int) (message : String)
  deriving Repr, DecidableEq

/-- Delivery of the event a call sent: the run goroutine consumes it with
handleMsg; no event means no delivery. -/
def Spinner.applyEvent (s : Spinner) (ev : Option updateMsg) : Spinner × List Out :=
  match ev with
  | some msg => s.handleMsg msg
  | none => (s, [])

/-- One public API call together with the delivery of the event it sends (the
updateChan is unbuffered with run as its only consumer, so the event is
consumed by handleMsg).  The output collects the run goroutine output followed
by the output the call itself prints. -/
def Spinner.doCall (s : Spinner) (c : Call) : Except String (Spinner × List Out) :=
  match c with
  | Call.register => .ok ((s.Register).1, [])
  | Call.start index msg =>
      match s.Start index msg with
      | .ok (s1, ev) => .ok (s1.applyEvent ev)
      | .error e => .error e
  | Call.message index msg =>
      let p := s.Message index msg
      .ok (p.1.applyEvent p.2)
  | Call.stop index msg =>
      match s.Stop index msg with
      | .ok (s1, ev, out) =>
          let p := s1.applyEvent ev
          .ok (p.1, p.2 ++ out)
      | .error e => .error e
  | Call.stopWithError index msg =>
      match s.StopWithError index msg with
      | .ok (s1, ev, out) =>
          let p := s1.applyEvent ev
          .ok (p.1, p.2 ++ out)
      | .error e => .error e

/-- Runs a sequence of API calls, threading the state and collecting all
output; stops at the first panic. -/
def exec (s : Spinner) : List Call → Except String (Spinner × List Out)
  | [] => .ok (s, [])
  | c :: cs =>
      match s.doCall c with
      | .ok (s1, out1) =>
          match exec s1 cs with
          | .ok (s2, out2) => .ok (s2, out1 ++ out2)
          | .error e => .error e
      | .error e => .error e

/-- Runs n Register calls in a row, collecting the returned indices in call
order. -/
def registerN : Spinner → Nat → Spinner × List Nat
  | s, 0 => (s, [])
  | s, n + 1 =>
      let p := s.Register
      let q := registerN p.1 n
      (q.1, p.2 :: q.2)

/-- Observation: the state after a call sequence, none when some call
panicked. -/
def stateAfter (s : Spinner) (cs : List Call) : Option Spinner :=
  match exec s cs with
  | .ok p => some p.1
  | .error _ => none

/-- Observation: the collected output of a call sequence (empty when some call
panicked). -/
def outputAfter (s : Spinner) (cs : List Call) : List Out :=
  match exec s cs with
  | .ok p => p.2
  | .error _ => []

/-- Observation: how many times a given string was written. -/
def writeCount (outs : List Out) (t : String) : Nat := outs.count (Out.write t)

/-- Observation: the message field of record i. -/
def messageOfRecord (s : Spinner) (i : Nat) : Option String :=
  (s.spinners[i]?).map spinnerInfo.message

/-- Observation: the active flag of record i. -/
def activeOfRecord (s : Spinner) (i : Nat) : Option Bool :=
  (s.spinners[i]?).map spinnerInfo.active

/-- Expected final success line of claim C10: the success color immediately
before and immediately after the check mark, no reset between the marker and
the message, the reset only after the message and before the newline. -/
def claimSuccessLine (successColor msg : String) : String :=
  successColor ++ "✓" ++ successColor ++ " " ++ msg ++ resetAttrs ++ "\n"

/-- Expected final failure line of claim C10, symmetric to claimSuccessLine
with the failure color and the cross mark. -/
def claimFailureLine (failureColor msg : String) : String :=
  failureColor ++ "✗" ++ failureColor ++ " " ++ msg ++ resetAttrs ++ "\n"

/-- Expected final paint of claim C6: restore the saved cursor position, move
down lineOffset rows (omitted when lineOffset is 0), clear the line, write the
line text, flush. -/
def claimFinalPaint (lineOffset : Nat) (line : String) : List Out :=
  [Out.write restoreCursorPos] ++
    (if lineOffset > 0 then [Out.write (moveDown lineOffset)] else []) ++
    [Out.write (clearLine ++ line), Out.sync]

/-- A freshly created default-config spinner set with one registered record,
used as a concrete input in several witnesses. -/
def oneReg : Spinner := ((Create DefaultConfig).1.Register).1

/-- A spinner set whose single record is active, used as a concrete input in
several witnesses. -/
def oneActive : Spinner :=
  { spinners := [{ message := "run", index := 0, active := true, lineNum := 0 }]
    successColor := "\x1b[32m"
    failureColor := "\x1b[31m"
    frequency := 100000000
    currentLine := 1
    activeCount := 1
    startLine := 0 }

/-- Call sequence behind the C3 evaluation: register, start record 0 with the
text old, then try to change the text to new via Message. -/
def c3calls : List Call := [Call.register, Call.start 0 "old", Call.message 0 "new"]

/-- Call sequence behind the C4 evaluation: one record, two Start calls on it,
then two matching Stop calls on it. -/
def c4calls : List Call :=
  [Call.register, Call.start 0 "a", Call.start 0 "a", Call.stop 0 "done", Call.stop 0 "done"]

/-- Call sequence behind the C7 counterexample: register, start, stop, then
start again on the same record. -/
def c7calls : List Call := [Call.register, Call.start 0 "a", Call.stop 0 "b", Call.start 0 "c"]

/-- Invariant step for registerN: from any state whose currentLine equals the
number of records, n Register calls return the n consecutive indices starting
at the current count and append records whose index and lineNum both equal
that running count. -/
theorem registerN_spec (n : Nat) :
    ∀ s : Spinner, s.currentLine = s.spinners.length →
      (registerN s n).2 = List.range' s.spinners.length n ∧
      (registerN s n).1.spinners =
        s.spinners ++ (List.range' s.spinners.length n).map
          (fun k => { message := "", index := k, active := false, lineNum := k }) := by
  induction n with
  | zero => intro s h; simp [registerN]
  | succ n ih =>
      intro s h
      have hlen : (s.Register).1.spinners.length = s.spinners.length + 1 := by
        simp [Spinner.Register]
      have hinv : (s.Register).1.currentLine = (s.Register).1.spinners.length := by
        simp [Spinner.Register, h]
      obtain ⟨h1, h2⟩ := ih (s.Register).1 hinv
      rw [hlen] at h1 h2
      constructor
      · show (s.Register).2 :: (registerN (s.Register).1 n).2 = _
        rw [h1, List.range'_succ]
        rfl
      · show (registerN (s.Register).1 n).1.spinners = _
        rw [h2, List.range'_succ]
        simp [Spinner.Register, h]

/-- Characterization of Stop on an in-range active record: it deactivates the
record, sends a stop event, and prints the final success line followed by a
flush. -/
theorem stop_active_eq (s : Spinner) (index : Int) (message : String) (sp : spinnerInfo)
    (h0 : 0 ≤ index) (h1 : s.spinners[index.toNat]? = some sp) (h2 : sp.active = true) :
    s.Stop index message =
      Except.ok ({ s with spinners := s.spinners.set index.toNat { sp with active := false } },
        some { index := index, message := message, action := "stop" },
        claimFinalPaint sp.lineNum (claimSuccessLine s.successColor message)) := by
  have hlt : index.toNat < s.spinners.length := (List.getElem?_eq_some.mp h1).1
  have hg1 : ¬ (s.spinners.length : Int) ≤ index := by omega
  have hg2 : ¬ index < 0 := by omega
  simp [Spinner.Stop, hg1, hg2, h1, h2, claimFinalPaint, claimSuccessLine, String.append_assoc]

/-- Characterization of StopWithError on an in-range active record, symmetric
to stop_active_eq with the error action and the failure line. -/
theorem stopWithError_active_eq (s : Spinner) (index : Int) (error : String) (sp : spinnerInfo)
    (h0 : 0 ≤ index) (h1 : s.spinners[index.toNat]? = some sp) (h2 : sp.active = true) :
    s.StopWithError index error =
      Except.ok ({ s with spinners := s.spinners.set index.toNat { sp with active := false } },
        some { index := index, message := error, action := "error" },
        claimFinalPaint sp.lineNum (claimFailureLine s.failureColor error)) := by
  have hlt : index.toNat < s.spinners.length := (List.getElem?_eq_some.mp h1).1
  have hg1 : ¬ (s.spinners.length : Int) ≤ index := by omega
  have hg2 : ¬ index < 0 := by omega
  simp [Spinner.StopWithError, hg1, hg2, h1, h2, claimFinalPaint, claimFailureLine,
    String.append_assoc]

/-- C1: for every sequence of N Register calls on a freshly created Spinner,
the returned indices are 0..N-1 in call order, and each appended record has
lineNum equal to its index (the record list is exactly the range map). -/
theorem c1_register_indices_and_offsets (N : Nat) :
    (registerN (Create DefaultConfig).1 N).2 = List.range N ∧
    (registerN (Create DefaultConfig).1 N).1.spinners =
      (List.range N).map (fun k => { message := "", index := k, active := false, lineNum := k }) := by
  have h := registerN_spec N (Create DefaultConfig).1 rfl
  have hs : (Create DefaultConfig).1.spinners = ([] : List spinnerInfo) := rfl
  rw [hs] at h
  simpa [List.range_eq_range'] using h

/-- C2 counterexample: on a spinner set with one registered record, Start with
index -1 hits the unguarded slice access and panics (modelled as
Except.error), so Start on a negative unregistered index is not a no-op. -/
theorem c2_counterexample :
    oneReg.Start (-1) "x" = Except.error "runtime error: index out of range" := rfl

/-- C2 amended: Start on an index at least the number of registered spinners
is a no-op (state unchanged, no event sent, hence no paint); on a negative
index the slice access panics. -/
theorem c2_start_out_of_range (s : Spinner) (index : Int) (message : String) :
    ((s.spinners.length : Int) ≤ index → s.Start index message = Except.ok (s, none)) ∧
    (index < 0 → s.Start index message = Except.error "runtime error: index out of range") := by
  constructor
  · intro h
    simp [Spinner.Start, h]
  · intro h
    have hg : ¬ (s.spinners.length : Int) ≤ index := by omega
    simp [Spinner.Start, hg, h]

/-- Witness for c2_start_out_of_range at index 5 and index -1 on a one-record
spinner set. -/
theorem c2_witness :
    oneReg.Start 5 "m" = Except.ok (oneReg, none) ∧
    oneReg.Start (-1) "m" = Except.error "runtime error: index out of range" :=
  ⟨(c2_start_out_of_range oneReg 5 "m").1 (by decide),
   (c2_start_out_of_range oneReg (-1) "m").2 (by decide)⟩

/-- C3: evaluation at the failing input.  After Register, Start 0 with text
old and Message 0 with text new, the record still holds the text old (run has
no case for the update action, so the event is dropped), and the next repaint
tick of the render loop paints the text old, not new. -/
theorem c3_message_event_dropped :
    (stateAfter (Create DefaultConfig).1 c3calls).map (fun s => messageOfRecord s 0) =
      some (some "old") ∧
    (stateAfter (Create DefaultConfig).1 c3calls).map (fun s => activeOfRecord s 0) =
      some (some true) ∧
    (stateAfter (Create DefaultConfig).1 c3calls).map (fun s => (s.runStep 0 true RunInput.tick).2) =
      some [Out.write restoreCursorPos, Out.write (clearLine ++ resetAttrs ++ "⠋" ++ " " ++ "old")] :=
  ⟨rfl, rfl, rfl⟩

/-- C4: evaluation at the failing input.  One record, two Start calls on it
and two matching Stop calls on it: run increments activeCount on every start
event (also for the active to active self transition), so activeCount ends at
1 instead of 0, the show-cursor sequence is never emitted, and the hide-cursor
sequence was emitted once. -/
theorem c4_active_count_not_restored :
    (stateAfter (Create DefaultConfig).1 c4calls).map Spinner.activeCount = some 1 ∧
    writeCount (outputAfter (Create DefaultConfig).1 c4calls) showCursor = 0 ∧
    writeCount (outputAfter (Create DefaultConfig).1 c4calls) hideCursor = 1 :=
  ⟨rfl, rfl, rfl⟩

/-- C5 counterexample: on a spinner set with one registered record, Stop and
StopWithError with index -1 hit the unguarded slice access and panic (modelled
as Except.error), so they are not no-ops for every out-of-range index. -/
theorem c5_counterexample :
    oneReg.Stop (-1) "x" = Except.error "runtime error: index out of range" ∧
    oneReg.StopWithError (-1) "x" = Except.error "runtime error: index out of range" :=
  ⟨rfl, rfl⟩

/-- C5 amended: Stop and StopWithError are no-ops (state unchanged, no event,
no output) on an index at least the number of registered spinners, and on an
in-range nonnegative index whose record is inactive; a negative index panics
instead (see the counterexample). -/
theorem c5_stop_noop (s : Spinner) (index : Int) (message : String) :
    ((s.spinners.length : Int) ≤ index →
        s.Stop index message = Except.ok (s, none, []) ∧
        s.StopWithError index message = Except.ok (s, none, [])) ∧
    (∀ sp, 0 ≤ index → s.spinners[index.toNat]? = some sp → sp.active = false →
        s.Stop index message = Except.ok (s, none, []) ∧
        s.StopWithError index message = Except.ok (s, none, [])) := by
  constructor
  · intro h
    constructor <;> simp [Spinner.Stop, Spinner.StopWithError, h]
  · intro sp h0 hget hact
    have hlt : index.toNat < s.spinners.length := (List.getElem?_eq_some.mp hget).1
    have hg1 : ¬ (s.spinners.length : Int) ≤ index := by omega
    have hg2 : ¬ index < 0 := by omega
    constructor <;> simp [Spinner.Stop, Spinner.StopWithError, hg1, hg2, hget, hact]

/-- Witness for c5_stop_noop at index 5 (out of range) and index 0 (in range
but inactive) on a one-record spinner set. -/
theorem c5_witness :
    (oneReg.Stop 5 "m" = Except.ok (oneReg, none, []) ∧
     oneReg.StopWithError 5 "m" = Except.ok (oneReg, none, [])) ∧
    (oneReg.Stop 0 "m" = Except.ok (oneReg, none, []) ∧
     oneReg.StopWithError 0 "m" = Except.ok (oneReg, none, [])) :=
  ⟨(c5_stop_noop oneReg 5 "m").1 (by decide),
   (c5_stop_noop oneReg 0 "m").2 { message := "", index := 0, active := false, lineNum := 0 }
     (by decide) rfl rfl⟩

/-- C6: Stop on an in-range active record synchronously produces, as the
output of the call itself, the final success paint: restore the saved cursor
anchor, move down lineOffset rows (omitted when lineOffset is 0), clear the
line, write the success marker followed by the message, and flush; it also
deactivates the record and sends the stop event. -/
theorem c6_stop_paints_final_line (s : Spinner) (index : Int) (message : String)
    (sp : spinnerInfo) (h0 : 0 ≤ index) (h1 : s.spinners[index.toNat]? = some sp)
    (h2 : sp.active = true) :
    s.Stop index message =
      Except.ok ({ s with spinners := s.spinners.set index.toNat { sp with active := false } },
        some { index := index, message := message, action := "stop" },
        claimFinalPaint sp.lineNum (claimSuccessLine s.successColor message)) :=
  stop_active_eq s index message sp h0 h1 h2

/-- Witness for c6_stop_paints_final_line on a one-record spinner set whose
record is active. -/
theorem c6_witness :
    oneActive.Stop 0 "done" =
      Except.ok ({ oneActive with
          spinners := [{ message := "run", index := 0, active := false, lineNum := 0 }] },
        some { index := 0, message := "done", action := "stop" },
        claimFinalPaint 0 (claimSuccessLine oneActive.successColor "done")) :=
  c6_stop_paints_final_line oneActive 0 "done"
    { message := "run", index := 0, active := true, lineNum := 0 } (by decide) rfl rfl

/-- C7 counterexample: register, start, stop, then start the same record
again: the record is active again, so the stopped state is not terminal. -/
theorem c7_counterexample :
    (stateAfter (Create DefaultConfig).1 c7calls).map (fun s => activeOfRecord s 0) =
      some (some true) := rfl

/-- C7 amended: a record only carries the active flag, so the state machine is
Registered(inactive) to Active and back: Stop and StopWithError set the flag
to false but do not make the record terminal, and any later Start on that
in-range index sets the record active again. -/
theorem c7_start_reactivates (s : Spinner) (index : Int) (message : String)
    (sp : spinnerInfo) (h0 : 0 ≤ index) (h1 : s.spinners[index.toNat]? = some sp) :
    s.Start index message =
      Except.ok ({ s with
          spinners := s.spinners.set index.toNat { sp with message := message, active := true } },
        some { index := index, message := message, action := "start" }) ∧
    activeOfRecord { s with
        spinners := s.spinners.set index.toNat { sp with message := message, active := true } }
      index.toNat = some true := by
  have hlt : index.toNat < s.spinners.length := (List.getElem?_eq_some.mp h1).1
  have hg1 : ¬ (s.spinners.length : Int) ≤ index := by omega
  have hg2 : ¬ index < 0 := by omega
  constructor
  · simp [Spinner.Start, hg1, hg2, h1]
  · simp [activeOfRecord, List.getElem?_set_self', h1]

/-- Witness for c7_start_reactivates on a one-record spinner set whose record
is inactive (as it is after a Stop). -/
theorem c7_witness :
    oneReg.Start 0 "c" =
      Except.ok ({ oneReg with
          spinners := [{ message := "c", index := 0, active := true, lineNum := 0 }] },
        some { index := 0, message := "c", action := "start" }) ∧
    activeOfRecord { oneReg with
        spinners := [{ message := "c", index := 0, active := true, lineNum := 0 }] } 0 =
      some true :=
  c7_start_reactivates oneReg 0 "c" { message := "", index := 0, active := false, lineNum := 0 }
    (by decide) rfl

/-- C8: on the termination signal the render loop emits the show-cursor escape
and the reset-attributes escape and exits, for every state of the spinner set
and of the loop, in particular for a state in which no spinner was ever
started. -/
theorem c8_teardown_restores_terminal (s : Spinner) (i : Nat) (firstRun : Bool) :
    s.runStep i firstRun RunInput.stopSignal =
      (none, [Out.write showCursor, Out.write resetAttrs]) := rfl

/-- C9: Create replaces each empty or zero config field by its default (green
success color, red failure color, 100ms frequency) and keeps non-empty and
non-zero fields; afterwards no operation changes the three configuration
fields of the state. -/
theorem c9_config_defaults_and_immutable :
    (∀ config : Config,
        (Create config).1.successColor =
          (if config.SuccessColor = "" then "\x1b[32m" else config.SuccessColor) ∧
        (Create config).1.failureColor =
          (if config.FailureColor = "" then "\x1b[31m" else config.FailureColor) ∧
        (Create config).1.frequency =
          (if config.Frequency = 0 then 100000000 else config.Frequency)) ∧
    (∀ s : Spinner,
        ((s.Register).1.successColor, (s.Register).1.failureColor, (s.Register).1.frequency) =
          (s.successColor, s.failureColor, s.frequency)) ∧
    (∀ (s : Spinner) (msg : updateMsg),
        ((s.handleMsg msg).1.successColor, (s.handleMsg msg).1.failureColor,
            (s.handleMsg msg).1.frequency) =
          (s.successColor, s.failureColor, s.frequency)) ∧
    (∀ (s : Spinner) (index : Int) (message : String) (s1 : Spinner) (ev : Option updateMsg),
        s.Start index message = Except.ok (s1, ev) →
        (s1.successColor, s1.failureColor, s1.frequency) =
          (s.successColor, s.failureColor, s.frequency)) ∧
    (∀ (s : Spinner) (index : Int) (message : String) (s1 : Spinner) (ev : Option updateMsg)
        (out : List Out),
        s.Stop index message = Except.ok (s1, ev, out) →
        (s1.successColor, s1.failureColor, s1.frequency) =
          (s.successColor, s.failureColor, s.frequency)) ∧
    (∀ (s : Spinner) (index : Int) (message : String) (s1 : Spinner) (ev : Option updateMsg)
        (out : List Out),
        s.StopWithError index message = Except.ok (s1, ev, out) →
        (s1.successColor, s1.failureColor, s1.frequency) =
          (s.successColor, s.failureColor, s.frequency)) := by
  refine ⟨?_, ?_, ?_, ?_, ?_, ?_⟩
  · intro config
    by_cases h1 : config.Frequency = 0 <;> by_cases h2 : config.SuccessColor = "" <;>
      by_cases h3 : config.FailureColor = "" <;>
      simp [Create, DefaultConfig, h1, h2, h3]
  · intro s
    simp [Spinner.Register]
  · intro s msg
    unfold Spinner.handleMsg
    split
    · rfl
    · split
      · rfl
      · rfl
  · intro s index message s1 ev h
    unfold Spinner.Start at h
    split at h
    · injection h with h
      injection h with ha hb
      subst ha
      rfl
    · split at h
      · exact Except.noConfusion h
      · split at h
        · exact Except.noConfusion h
        · injection h with h
          injection h with ha hb
          subst ha
          rfl
  · intro s index message s1 ev out h
    unfold Spinner.Stop at h
    split at h
    · injection h with h
      injection h with ha hb
      subst ha
      rfl
    · split at h
      · exact Except.noConfusion h
      · split at h
        · exact Except.noConfusion h
        · split at h
          · injection h with h
            injection h with ha hb
            subst ha
            rfl
          · injection h with h
            injection h with ha hb
            subst ha
            rfl
  · intro s index message s1 ev out h
    unfold Spinner.StopWithError at h
    split at h
    · injection h with h
      injection h with ha hb
      subst ha
      rfl
    · split at h
      · exact Except.noConfusion h
      · split at h
        · exact Except.noConfusion h
        · split at h
          · injection h with h
            injection h with ha hb
            subst ha
            rfl
          · injection h with h
            injection h with ha hb
            subst ha
            rfl

/-- Witness for c9_config_defaults_and_immutable: a fully zero config gets all
three defaults, and a Start call (here a no-op on an out-of-range index, so
the hypothesis is discharged by rfl) preserves the configuration fields. -/
theorem c9_witness :
    ((Create { SuccessColor := "", FailureColor := "", Frequency := 0 }).1.successColor = "\x1b[32m" ∧
     (Create { SuccessColor := "", FailureColor := "", Frequency := 0 }).1.failureColor = "\x1b[31m" ∧
     (Create { SuccessColor := "", FailureColor := "", Frequency := 0 }).1.frequency = 100000000) ∧
    (oneReg.successColor, oneReg.failureColor, oneReg.frequency) =
      (oneReg.successColor, oneReg.failureColor, oneReg.frequency) :=
  ⟨c9_config_defaults_and_immutable.1 { SuccessColor := "", FailureColor := "", Frequency := 0 },
   c9_config_defaults_and_immutable.2.2.2.1 oneReg 5 "m" oneReg none rfl⟩

/-- C10: in the final line painted by Stop on an active record, the success
color escape stands immediately before and immediately after the check mark,
with no attribute reset between the marker and the message; the reset escape
comes only after the message and before the trailing newline, so the message
is rendered in the success color.  StopWithError symmetrically renders the
error text in the failure color around the cross mark. -/
theorem c10_colored_final_lines (s : Spinner) (index : Int) (message : String)
    (sp : spinnerInfo) (h0 : 0 ≤ index) (h1 : s.spinners[index.toNat]? = some sp)
    (h2 : sp.active = true) :
    (∃ p, s.Stop index message = Except.ok p ∧
        p.2.2 = claimFinalPaint sp.lineNum (claimSuccessLine s.successColor message)) ∧
    (∃ p, s.StopWithError index message = Except.ok p ∧
        p.2.2 = claimFinalPaint sp.lineNum (claimFailureLine s.failureColor message)) :=
  ⟨⟨_, stop_active_eq s index message sp h0 h1 h2, rfl⟩,
   ⟨_, stopWithError_active_eq s index message sp h0 h1 h2, rfl⟩⟩

/-- Witness for c10_colored_final_lines on a one-record spinner set whose
record is active. -/
theorem c10_witness :
    (∃ p, oneActive.Stop 0 "done" = Except.ok p ∧
        p.2.2 = claimFinalPaint 0 (claimSuccessLine oneActive.successColor "done")) ∧
    (∃ p, oneActive.StopWithError 0 "done" = Except.ok p ∧
        p.2.2 = claimFinalPaint 0 (claimFailureLine oneActive.failureColor "done")) :=
  c10_colored_final_lines oneActive 0 "done"
    { message := "run", index := 0, active := true, lineNum := 0 } (by decide) rfl rfl

end Multispinner
